import Mathlib

/-!
Verification of `pytorch_eo/tasks/segmentation/ImageSegmentation.py`.

The adapter class `ImageSegmentation(BaseTask)` is embedded shallowly:

* tensors are opaque values, modelled as integer lists;
* Python dicts keyed by strings are insertion-ordered association lists;
* a dict subscript `y['mask']` that can raise `KeyError` is an `Option`
  lookup, and fallible framework calls (loss and metric functions) return
  `Option`, so a method that can raise returns `Option`;
* the external torch functions the adapter calls (`torch.sigmoid`,
  `Tensor.to(device)`) are fields of a `Torch` record, and the
  framework-provided default loss (`torch.nn.BCEWithLogitsLoss()`) and the
  repository metric `iou` are parameters of the constructor embedding;
* the task's state is a record holding the six values assembled by the
  constructor, the framework-managed `device`, and the framework's
  training-mode flag (`self.training`, toggled by `self.eval()`);
* `predict` threads the state it can touch explicitly: it returns the
  output tensor, the task state after the call, and the batch dict after
  the call.
-/

namespace PytorchEO

/-- Tensors are opaque to the adapter; we model them as integer lists. -/
abbrev Tensor := List Int

/-- Torch devices, opaque to the adapter. -/
abbrev Device := Nat

/-- A Python dict from string keys to tensors, as an insertion-ordered
association list (a genuine dict never repeats a key). -/
abbrev TMap := List (String × Tensor)

/-- Python dict subscript `y[k]`: the first binding of `k`, `none` when the
subscript would raise `KeyError`. -/
def TMap.get (y : TMap) (k : String) : Option Tensor :=
  (y.find? (fun p => p.1 == k)).map Prod.snd

/-- A framework-provided loss or metric function; it may fail on the given
tensors, hence the `Option` result. -/
abbrev TensorFn := Tensor → Tensor → Option Tensor

/-- The `self.metrics` dict: metric names to metric functions. -/
abbrev Metrics := List (String × TensorFn)

/-- The `hparams` dict (e.g. `{'optimizer': 'Adam'}`). -/
abbrev HParams := List (String × String)

/-- The external torch functions `predict` calls: `torch.sigmoid` and
`Tensor.to(device)`. -/
structure Torch where
  sigmoid : Tensor → Tensor
  toDevice : Tensor → Device → Tensor

/-- The task state: the six values the constructor assembles and hands to the
base task, plus the framework-managed device and training-mode flag. -/
structure ImageSegmentation where
  model : TMap → Tensor
  hparams : HParams
  inputs : List String
  outputs : List String
  loss_fn : TensorFn
  metrics : Metrics
  device : Device
  training : Bool

/-- Modelled from the spec: the generic base task (`BaseTask.__init__`, not
under `src/`) already implements "optimizer wiring, device placement, and
checkpointing"; it stores the six values it is given, and the framework picks
the device and starts the module in training mode. -/
def BaseTask.init (model : TMap → Tensor) (hparams : HParams)
    (inputs outputs : List String) (loss_fn : TensorFn) (metrics : Metrics) :
    ImageSegmentation :=
  { model := model, hparams := hparams, inputs := inputs, outputs := outputs,
    loss_fn := loss_fn, metrics := metrics, device := 0, training := true }

/-- `ImageSegmentation.__init__`: fill the `None` defaults
(`torch.nn.BCEWithLogitsLoss()`, `{'optimizer': 'Adam'}`, `{'iou': iou}`) and
forward the six values to `super().__init__`.  `bce` is the external
`torch.nn.BCEWithLogitsLoss()` instance and `iouFn` the repository metric
`iou`, both opaque here. -/
def ImageSegmentation.init (bce iouFn : TensorFn) (model : TMap → Tensor)
    (hparams : Option HParams) (inputs outputs : List String)
    (loss_fn : Option TensorFn) (metrics : Option Metrics) :
    ImageSegmentation :=
  let loss_fn := match loss_fn with | none => bce | some f => f
  let hparams := match hparams with | none => [("optimizer", "Adam")] | some h => h
  let metrics := match metrics with | none => [("iou", iouFn)] | some m => m
  BaseTask.init model hparams inputs outputs loss_fn metrics

/-- `compute_loss(self, y_hat, y) = self.loss_fn(y_hat, y['mask'])`: look up
`'mask'` (raising if absent), then call the stored loss function. -/
def ImageSegmentation.compute_loss (t : ImageSegmentation) (y_hat : Tensor)
    (y : TMap) : Option Tensor :=
  (TMap.get y "mask").bind (fun m => t.loss_fn y_hat m)

/-- The dict comprehension of `compute_metrics`, one entry per metric: each
iteration looks up `y['mask']` and calls the metric; with no metrics the body
never runs and the result is the empty dict. -/
def metricsFold (y_hat : Tensor) (y : TMap) : Metrics → Option TMap
  | [] => some []
  | p :: rest =>
      (TMap.get y "mask").bind (fun m =>
        (p.2 y_hat m).bind (fun v =>
          (metricsFold y_hat y rest).map (fun r => (p.1, v) :: r)))

/-- `compute_metrics(self, y_hat, y) =
{name: metric(y_hat, y['mask']) for name, metric in self.metrics.items()}`. -/
def ImageSegmentation.compute_metrics (t : ImageSegmentation) (y_hat : Tensor)
    (y : TMap) : Option TMap :=
  metricsFold y_hat y t.metrics

/-- Modelled from the spec: `self.eval()` is the framework's (PyTorch)
module method putting the module in evaluation mode, i.e. clearing the
training flag. -/
def ImageSegmentation.evalMode (t : ImageSegmentation) : ImageSegmentation :=
  { t with training := false }

/-- Modelled from the spec: `self(x)` dispatches to the base task's forward
pass, which runs the stored model on the given inputs ("how to run inference,
given a model and a batch of inputs"). -/
def ImageSegmentation.forward (t : ImageSegmentation) (x : TMap) : Tensor :=
  t.model x

/-- `predict(self, batch)`: `self.eval()`; then, under `torch.no_grad()`
(gradient bookkeeping, invisible in this embedding), build the fresh dict
`x = {k: v.to(self.device) for k, v in batch.items() if k in self.inputs}`,
run `y_hat = self(x)` and return `torch.sigmoid(y_hat)`.  The embedding also
returns the task state and the `batch` dict as they stand when the method
returns; no statement of the body assigns to `batch` or mutates it, so the
final component is the dict the caller passed. -/
def ImageSegmentation.predict (fw : Torch) (t : ImageSegmentation)
    (batch : TMap) : Tensor × ImageSegmentation × TMap :=
  let t := t.evalMode
  let x : TMap := batch.filterMap (fun p =>
    if p.1 ∈ t.inputs then some (p.1, fw.toDevice p.2 t.device) else none)
  let y_hat := t.forward x
  (fw.sigmoid y_hat, t, batch)

/-! Concrete fixtures, used by witnesses and counterexamples. -/

/-- A concrete fallible binary tensor function: concatenation. -/
def catFn : TensorFn := fun a b => some (a ++ b)

/-- A concrete task instance. -/
def T0 : ImageSegmentation :=
  { model := fun x => (TMap.get x "image").getD [], hparams := [("optimizer", "Adam")],
    inputs := ["image"], outputs := ["mask"], loss_fn := catFn,
    metrics := [("iou", catFn)], device := 0, training := true }

/-- Concrete torch functions for witnesses. -/
def fw0 : Torch :=
  { sigmoid := fun v => v.map (· + 1), toDevice := fun v _ => v }

/-! Theorems for the claims. -/

/-- C1: whenever the target mapping binds the key `mask` to a tensor `m`,
`compute_loss` returns exactly `loss_fn y_hat m` — the adapter forwards the
tensors to the stored loss function and applies no transformation of its
own. -/
theorem compute_loss_delegates (t : ImageSegmentation) (y_hat m : Tensor)
    (y : TMap) (hm : TMap.get y "mask" = some m) :
    t.compute_loss y_hat y = t.loss_fn y_hat m := by
  simp [ImageSegmentation.compute_loss, hm]

/-- Witness for C1 at a concrete task, prediction and target. -/
theorem compute_loss_delegates_witness :
    T0.compute_loss [1] [("mask", [2])] = T0.loss_fn [1] [2] :=
  compute_loss_delegates T0 [1] [2] [("mask", [2])] rfl

/-- Helper for C2: with the mask present and every metric succeeding on it,
the comprehension succeeds, keeps the metric names in order, and binds each
name to its metric's value on `(y_hat, mask)`. -/
theorem metricsFold_total (y_hat m : Tensor) (y : TMap)
    (hm : TMap.get y "mask" = some m) :
    ∀ l : Metrics, (∀ p ∈ l, ∃ v, p.2 y_hat m = some v) →
      ∃ r, metricsFold y_hat y l = some r ∧
        r.map Prod.fst = l.map Prod.fst ∧
        List.Forall₂ (fun (p : String × TensorFn) (q : String × Tensor) =>
          q.1 = p.1 ∧ p.2 y_hat m = some q.2) l r := by
  intro l
  induction l with
  | nil => exact fun _ => ⟨[], rfl, rfl, List.Forall₂.nil⟩
  | cons p rest ih =>
      intro hs
      obtain ⟨v, hv⟩ := hs p (List.mem_cons_self p rest)
      obtain ⟨r, hr, hkeys, hall⟩ := ih (fun q hq => hs q (List.mem_cons_of_mem p hq))
      refine ⟨(p.1, v) :: r, ?_, ?_, List.Forall₂.cons ⟨rfl, hv⟩ hall⟩
      · simp [metricsFold, hm, hv, hr]
      · simpa using hkeys

/-- C2: with the key `mask` present and every stored metric succeeding on
`(y_hat, mask)`, `compute_metrics` returns a dict whose key list equals the
key list of `self.metrics` and which binds each metric name to
`metric y_hat mask`. -/
theorem compute_metrics_delegates (t : ImageSegmentation) (y_hat m : Tensor)
    (y : TMap) (hm : TMap.get y "mask" = some m)
    (hs : ∀ p ∈ t.metrics, ∃ v, p.2 y_hat m = some v) :
    ∃ r, t.compute_metrics y_hat y = some r ∧
      r.map Prod.fst = t.metrics.map Prod.fst ∧
      List.Forall₂ (fun (p : String × TensorFn) (q : String × Tensor) =>
        q.1 = p.1 ∧ p.2 y_hat m = some q.2) t.metrics r :=
  metricsFold_total y_hat m y hm t.metrics hs

/-- Witness for C2 at a concrete task, prediction and target. -/
theorem compute_metrics_delegates_witness :
    ∃ r, T0.compute_metrics [1] [("mask", [2])] = some r ∧
      r.map Prod.fst = T0.metrics.map Prod.fst ∧
      List.Forall₂ (fun (p : String × TensorFn) (q : String × Tensor) =>
        q.1 = p.1 ∧ p.2 [1] [2] = some q.2) T0.metrics r :=
  compute_metrics_delegates T0 [1] [2] [("mask", [2])] rfl
    (by intro p hp; simp [T0] at hp; exact ⟨[1, 2], by simp [hp, catFn]⟩)

/-- C3: the tensor `predict` returns is `sigmoid` of the model's output on the
sub-dict of the batch restricted to `self.inputs`, each value moved to the
task's device: filter, move, run the model, apply sigmoid, in that order. -/
theorem predict_pipeline (fw : Torch) (t : ImageSegmentation) (batch : TMap) :
    (ImageSegmentation.predict fw t batch).1 =
      fw.sigmoid (t.model (batch.filterMap (fun p =>
        if p.1 ∈ t.inputs then some (p.1, fw.toDevice p.2 t.device) else none))) :=
  rfl

/-- C4: the constructor replaces a `None` loss by the framework default `bce`,
a `None` hparams by `{'optimizer': 'Adam'}`, a `None` metrics by
`{'iou': iou}`, passes non-`None` arguments through unchanged, and the six
assembled values are exactly what the base task stores. -/
theorem init_defaults (bce iouFn : TensorFn) (model : TMap → Tensor)
    (hparams : Option HParams) (inputs outputs : List String)
    (loss_fn : Option TensorFn) (metrics : Option Metrics) :
    (ImageSegmentation.init bce iouFn model hparams inputs outputs loss_fn
        metrics).model = model ∧
    (ImageSegmentation.init bce iouFn model hparams inputs outputs loss_fn
        metrics).hparams = hparams.getD [("optimizer", "Adam")] ∧
    (ImageSegmentation.init bce iouFn model hparams inputs outputs loss_fn
        metrics).inputs = inputs ∧
    (ImageSegmentation.init bce iouFn model hparams inputs outputs loss_fn
        metrics).outputs = outputs ∧
    (ImageSegmentation.init bce iouFn model hparams inputs outputs loss_fn
        metrics).loss_fn = loss_fn.getD bce ∧
    (ImageSegmentation.init bce iouFn model hparams inputs outputs loss_fn
        metrics).metrics = metrics.getD [("iou", iouFn)] := by
  cases hparams <;> cases loss_fn <;> cases metrics <;>
    exact ⟨rfl, rfl, rfl, rfl, rfl, rfl⟩

/-- A task with an empty metrics dict, for the C5 counterexample. -/
def Tempty : ImageSegmentation := { T0 with metrics := [] }

/-- C5 counterexample: with `metrics = {}` and a target dict lacking `mask`,
the claim says `compute_metrics` fails, but the dict comprehension's body
never runs, the subscript `y['mask']` is never evaluated, and the call
succeeds with the empty dict. -/
theorem compute_metrics_empty_succeeds :
    TMap.get ([] : TMap) "mask" = none ∧
      Tempty.compute_metrics [1] [] = some [] :=
  ⟨rfl, rfl⟩

/-- Helper for C5: when the `mask` lookup fails a nonempty comprehension
fails. -/
theorem metricsFold_none_of_no_mask (y_hat : Tensor) (y : TMap)
    (hm : TMap.get y "mask" = none) (p : String × TensorFn) (l : Metrics) :
    metricsFold y_hat y (p :: l) = none := by
  simp [metricsFold, hm]

/-- Helper for C5: the exact failure condition of the comprehension. -/
theorem metricsFold_eq_none_iff (y_hat : Tensor) (y : TMap) :
    ∀ l : Metrics, metricsFold y_hat y l = none ↔
      (l ≠ [] ∧ TMap.get y "mask" = none) ∨
      (∃ m, TMap.get y "mask" = some m ∧ ∃ p ∈ l, p.2 y_hat m = none) := by
  intro l
  induction l with
  | nil => simp [metricsFold]
  | cons p rest ih =>
      cases hm : TMap.get y "mask" with
      | none => simp [metricsFold, hm]
      | some m =>
          cases hv : p.2 y_hat m with
          | none => simp [metricsFold, hm, hv]
          | some v =>
              simp only [metricsFold, hm, hv, Option.some_bind, Option.map_eq_none']
              rw [ih]
              simp [hm, hv]

/-- C5 (amended): `compute_loss` fails exactly when the target lacks `mask`
or the loss function fails on `(y_hat, mask)`; `compute_metrics` fails
exactly when the metrics dict is nonempty and the target lacks `mask`, or
some stored metric fails on `(y_hat, mask)` — in particular with `mask`
present and every applied function succeeding, neither method fails. -/
theorem failure_characterization (t : ImageSegmentation) (y_hat : Tensor)
    (y : TMap) :
    (t.compute_loss y_hat y = none ↔
      TMap.get y "mask" = none ∨
      (∃ m, TMap.get y "mask" = some m ∧ t.loss_fn y_hat m = none)) ∧
    (t.compute_metrics y_hat y = none ↔
      (t.metrics ≠ [] ∧ TMap.get y "mask" = none) ∨
      (∃ m, TMap.get y "mask" = some m ∧ ∃ p ∈ t.metrics, p.2 y_hat m = none)) := by
  constructor
  · cases hm : TMap.get y "mask" with
    | none => simp [ImageSegmentation.compute_loss, hm]
    | some m => simp [ImageSegmentation.compute_loss, hm]
  · exact metricsFold_eq_none_iff y_hat y t.metrics

/-- C6: neither `compute_loss` nor `compute_metrics` reads the `outputs`
field — both index the target dict with the hardcoded key `'mask'` — so two
tasks differing only in `outputs` produce identical results (success or
failure alike) on every prediction and target. -/
theorem outputs_irrelevant (t : ImageSegmentation) (o₁ o₂ : List String)
    (y_hat : Tensor) (y : TMap) :
    ({ t with outputs := o₁ } : ImageSegmentation).compute_loss y_hat y =
      ({ t with outputs := o₂ } : ImageSegmentation).compute_loss y_hat y ∧
    ({ t with outputs := o₁ } : ImageSegmentation).compute_metrics y_hat y =
      ({ t with outputs := o₂ } : ImageSegmentation).compute_metrics y_hat y :=
  ⟨rfl, rfl⟩

/-- Helper for C7: the comprehension reads the target dict only through its
`mask` binding. -/
theorem metricsFold_congr (y_hat : Tensor) (y₁ y₂ : TMap)
    (h : TMap.get y₁ "mask" = TMap.get y₂ "mask") :
    ∀ l : Metrics, metricsFold y_hat y₁ l = metricsFold y_hat y₂ l := by
  intro l
  induction l with
  | nil => rfl
  | cons p rest ih => simp [metricsFold, h, ih]

/-- C7: two target dicts binding `mask` to the same tensor are
interchangeable for `compute_loss` and `compute_metrics`; entries under other
keys never influence the loss or the metrics. -/
theorem mask_only_dependence (t : ImageSegmentation) (y_hat m : Tensor)
    (y₁ y₂ : TMap) (h₁ : TMap.get y₁ "mask" = some m)
    (h₂ : TMap.get y₂ "mask" = some m) :
    t.compute_loss y_hat y₁ = t.compute_loss y_hat y₂ ∧
    t.compute_metrics y_hat y₁ = t.compute_metrics y_hat y₂ := by
  refine ⟨?_, metricsFold_congr y_hat y₁ y₂ (h₁.trans h₂.symm) t.metrics⟩
  simp [ImageSegmentation.compute_loss, h₁, h₂]

/-- Witness for C7: a target dict carrying an extra entry gives the same loss
and metrics as the bare mask dict. -/
theorem mask_only_dependence_witness :
    T0.compute_loss [1] [("mask", [2]), ("extra", [9])] =
      T0.compute_loss [1] [("mask", [2])] ∧
    T0.compute_metrics [1] [("mask", [2]), ("extra", [9])] =
      T0.compute_metrics [1] [("mask", [2])] :=
  mask_only_dependence T0 [1] [2] [("mask", [2]), ("extra", [9])]
    [("mask", [2])] rfl rfl

/-- C8 counterexample: `predict` calls `self.eval()`, which rewrites the
task's training-mode field: starting from a task in training mode, the task
that comes out of `predict` has `training = false`, so it is not true that no
operation updates a field of the task. -/
theorem predict_updates_training :
    T0.training = true ∧
      ((ImageSegmentation.predict fw0 T0 []).2.1).training = false :=
  ⟨rfl, rfl⟩

/-- C8 (amended): the adapter's three operations delegate and add no state of
their own: `compute_loss` and `compute_metrics` are pure calls into the
stored loss and metric functions (no task field is touched), `predict`'s
output is the delegated `sigmoid`/model pipeline, and the only field `predict`
writes is the framework's training-mode flag — cleared by the delegated
`self.eval()` call — every stored field (model, hparams, inputs, outputs,
loss_fn, metrics, device) coming out unchanged. -/
theorem adapter_frame (fw : Torch) (t : ImageSegmentation) (batch : TMap) :
    (ImageSegmentation.predict fw t batch).2.1.model = t.model ∧
    (ImageSegmentation.predict fw t batch).2.1.hparams = t.hparams ∧
    (ImageSegmentation.predict fw t batch).2.1.inputs = t.inputs ∧
    (ImageSegmentation.predict fw t batch).2.1.outputs = t.outputs ∧
    (ImageSegmentation.predict fw t batch).2.1.loss_fn = t.loss_fn ∧
    (ImageSegmentation.predict fw t batch).2.1.metrics = t.metrics ∧
    (ImageSegmentation.predict fw t batch).2.1.device = t.device ∧
    (ImageSegmentation.predict fw t batch).2.1.training = false ∧
    (ImageSegmentation.predict fw t batch).1 =
      fw.sigmoid (t.model (batch.filterMap (fun p =>
        if p.1 ∈ t.inputs then some (p.1, fw.toDevice p.2 t.device) else none))) :=
  ⟨rfl, rfl, rfl, rfl, rfl, rfl, rfl, rfl, rfl⟩

/-- Helper for C9: the comprehension building `x` is the inputs-restriction
of the batch followed by the device move. -/
theorem filterMap_inputs_eq (fw : Torch) (t : ImageSegmentation) :
    ∀ b : TMap,
      b.filterMap (fun p =>
          if p.1 ∈ t.inputs then some (p.1, fw.toDevice p.2 t.device) else none) =
        (b.filter (fun p => decide (p.1 ∈ t.inputs))).map
          (fun p => (p.1, fw.toDevice p.2 t.device)) := by
  intro b
  induction b with
  | nil => rfl
  | cons p rest ih =>
      by_cases hp : p.1 ∈ t.inputs <;>
        simp [List.filterMap_cons, List.filter_cons, hp, ih]

/-- C9: `predict` reads the batch only through its restriction to the keys in
`self.inputs`: two batches whose inputs-restrictions coincide give the same
prediction — entries under other keys (such as targets) are filtered out
before the model runs and never reach it. -/
theorem predict_ignores_non_inputs (fw : Torch) (t : ImageSegmentation)
    (b₁ b₂ : TMap)
    (h : b₁.filter (fun p => decide (p.1 ∈ t.inputs)) =
         b₂.filter (fun p => decide (p.1 ∈ t.inputs))) :
    (ImageSegmentation.predict fw t b₁).1 =
      (ImageSegmentation.predict fw t b₂).1 := by
  have key : ∀ b : TMap, (ImageSegmentation.predict fw t b).1 =
      fw.sigmoid (t.model (b.filterMap (fun p =>
        if p.1 ∈ t.inputs then some (p.1, fw.toDevice p.2 t.device) else none))) :=
    fun _ => rfl
  rw [key b₁, key b₂, filterMap_inputs_eq fw t b₁, filterMap_inputs_eq fw t b₂, h]

/-- Witness for C9: adding a target entry to the batch does not change the
prediction. -/
theorem predict_ignores_non_inputs_witness :
    (ImageSegmentation.predict fw0 T0 [("image", [1]), ("mask", [2])]).1 =
      (ImageSegmentation.predict fw0 T0 [("image", [1])]).1 :=
  predict_ignores_non_inputs fw0 T0 [("image", [1]), ("mask", [2])]
    [("image", [1])] (by decide)

/-- C10: `predict` does not mutate the batch it is given: the dict
comprehension builds a fresh dict, no statement of the body writes to
`batch`, and the batch component of the threaded state that comes out of
`predict` is exactly the dict that went in — same keys, same values. -/
theorem predict_preserves_batch (fw : Torch) (t : ImageSegmentation)
    (batch : TMap) :
    (ImageSegmentation.predict fw t batch).2.2 = batch :=
  rfl

end PytorchEO
